import Mathlib

/-!
Shallow embedding of the hardware control plane of the LenovoLegion7iLinux
repository (Python sources under `LenovoLegion/linux_core/`), together with
theorems settling the behavioural claims about it.

Each definition is a direct translation of the Python function named in its
doc comment.  Machine numbers are modelled as `Int` (the Python values in
question are small integers); the floating-point CPU percentages compared by
the process listener are modelled exactly as rationals, since the source only
compares them.  Subprocess invocations and file writes are modelled by
explicit adapter outcomes / action traces.
-/

namespace Legion

/-! ## RGB colours — `hardware/rgb_controller.py`, class `RGBColor` -/

/-- A stored RGB colour.  Mirrors the `RGBColor` dataclass fields. -/
structure RGBColor where
  red : Int
  green : Int
  blue : Int
deriving DecidableEq, Repr

/-- The clamping applied to each component: `max(0, min(255, x))`
(`RGBColor.__post_init__`). -/
def clamp255 (x : Int) : Int := max 0 (min 255 x)

/-- Constructing an `RGBColor` runs `__post_init__`, which clamps every
component into `[0, 255]`. -/
def RGBColor.make (r g b : Int) : RGBColor :=
  ⟨clamp255 r, clamp255 g, clamp255 b⟩

/-- Two lowercase hex digits of a byte, as produced by the format spec
`{x:02x}` for `0 ≤ x ≤ 255` (`RGBColor.to_hex`). -/
def hexByte (x : Int) : List Char :=
  [Nat.digitChar (x.toNat / 16), Nat.digitChar (x.toNat % 16)]

/-- `RGBColor.to_hex`: `f"#{red:02x}{green:02x}{blue:02x}"`, as a character
list. -/
def RGBColor.toHex (c : RGBColor) : List Char :=
  '#' :: (hexByte c.red ++ hexByte c.green ++ hexByte c.blue)

/-- Value of one hexadecimal digit, as accepted by the Python builtin `int(_, 16)`. -/
def hexCharVal (c : Char) : Nat :=
  if '0' ≤ c ∧ c ≤ '9' then c.toNat - '0'.toNat
  else if 'a' ≤ c ∧ c ≤ 'f' then c.toNat - 'a'.toNat + 10
  else if 'A' ≤ c ∧ c ≤ 'F' then c.toNat - 'A'.toNat + 10
  else 0

/-- `int(s[i:i+2], 16)` for a two-character slice. -/
def parseHexByte (c₁ c₂ : Char) : Int :=
  (hexCharVal c₁ * 16 + hexCharVal c₂ : Nat)

/-- `RGBColor.from_hex`: strips a leading `#`, parses the three 2-character
slices, and constructs the colour (which re-runs the clamp). -/
def RGBColor.fromHex (s : List Char) : RGBColor :=
  match s.dropWhile (· = '#') with
  | c₁ :: c₂ :: c₃ :: c₄ :: c₅ :: c₆ :: _ =>
      RGBColor.make (parseHexByte c₁ c₂) (parseHexByte c₃ c₄) (parseHexByte c₅ c₆)
  | _ => RGBColor.make 0 0 0

/-! ## GPU controller — `hardware/gpu_controller.py`, class `LinuxGPUController` -/

/-- Outcome of one `subprocess.run` call: exit code `0` (`ok`) or a nonzero
exit code (`err`).  The controller methods below inspect `returncode` (or
ignore it — faithfully reproduced). -/
inductive AdapterResult where
  | ok
  | err
deriving DecidableEq, Repr

/-- The mutable `GPUSettings` state held in
`LinuxGPUController.current_settings`. -/
structure GPUSettings where
  power_limit : Int
  core_offset : Int
  memory_offset : Int
  fan_curve : List (Int × Int)
  performance_mode : String
deriving DecidableEq, Repr

/-- The initial `current_settings` built in `LinuxGPUController.__init__`. -/
def initialGPUSettings : GPUSettings :=
  { power_limit := 115
    core_offset := 0
    memory_offset := 0
    fan_curve := [(40, 30), (60, 50), (70, 70), (80, 85), (90, 100)]
    performance_mode := "balanced" }

/-- `LinuxGPUController.set_power_limit`.  Raises `ValueError`
(modelled as `.error`) unless `60 <= power_limit <= 140`; otherwise runs
`sudo nvidia-smi -pl <v>` and updates `current_settings.power_limit` only
when the return code of the command is `0`; on a nonzero return code it logs and
returns `False` with the state unchanged.  Without NVIDIA support it returns
`False` unchanged. -/
def setPowerLimit (nvidiaAvailable : Bool) (adapter : AdapterResult)
    (s : GPUSettings) (v : Int) : Except String (Bool × GPUSettings) :=
  if ¬(60 ≤ v ∧ v ≤ 140) then
    .error "Power limit must be between 60-140W for RTX 4070"
  else if nvidiaAvailable then
    match adapter with
    | .ok => .ok (true, { s with power_limit := v })
    | .err => .ok (false, s)
  else
    .ok (false, s)

/-- `LinuxGPUController.set_clock_offsets`.  Raises unless
`-200 <= core_offset <= 200` and `0 <= memory_offset <= 1000`; then runs the
two `nvidia-settings` commands in order, returning `False` (state unchanged)
as soon as one fails, and updating both offsets only after both succeed. -/
def setClockOffsets (nvidiaAvailable : Bool) (adapter₁ adapter₂ : AdapterResult)
    (s : GPUSettings) (core mem : Int) : Except String (Bool × GPUSettings) :=
  if ¬(-200 ≤ core ∧ core ≤ 200) then
    .error "Core offset must be between -200 and +200 MHz"
  else if ¬(0 ≤ mem ∧ mem ≤ 1000) then
    .error "Memory offset must be between 0 and +1000 MHz"
  else if nvidiaAvailable then
    match adapter₁ with
    | .err => .ok (false, s)
    | .ok =>
      match adapter₂ with
      | .err => .ok (false, s)
      | .ok => .ok (true, { s with core_offset := core, memory_offset := mem })
  else
    .ok (false, s)

/-- `LinuxGPUController.set_fan_curve`.  With NVIDIA support it runs the
`GPUFanControlState=1` command and one `GPUTargetFanSpeed` command per curve
point, but *ignores every return code* (`subprocess.run` without `check`),
then stores the new curve and returns `True` unconditionally.  The adapter
outcomes are therefore parameters that the function never inspects. -/
def setFanCurve (nvidiaAvailable : Bool) (_controlAdapter : AdapterResult)
    (_pointAdapters : List AdapterResult) (s : GPUSettings)
    (curve : List (Int × Int)) : Bool × GPUSettings :=
  if nvidiaAvailable then
    (true, { s with fan_curve := curve })
  else
    (false, s)

/-! ## RGB controller state — `hardware/rgb_controller.py`,
class `LinuxRGBController` -/

/-- The mutable state of `LinuxRGBController` relevant to brightness. -/
structure RGBState where
  brightness : Int
deriving DecidableEq, Repr

/-- `LinuxRGBController.set_brightness`.  Raises `ValueError` unless
`0 <= brightness <= 100`; then writes the value to the
`rgb_brightness` control file and updates `self.brightness` only when that
write succeeded (a failed file write is caught and yields `False` with the
stored brightness unchanged). -/
def setBrightness (fileWrite : AdapterResult) (s : RGBState) (b : Int) :
    Except String (Bool × RGBState) :=
  if ¬(0 ≤ b ∧ b ≤ 100) then
    .error "Brightness must be between 0 and 100"
  else
    match fileWrite with
    | .ok => .ok (true, { s with brightness := b })
    | .err => .ok (false, s)

/-- `true` when the call raised (Python `ValueError` escaping the method),
`false` when it returned normally. -/
def raised {α : Type} : Except String α → Bool
  | .error _ => true
  | .ok _ => false

/-! ## Automation profiles — `automation/auto_listeners.py` -/

/-- The `AutomationProfile` dataclass, with its declared defaults.
`custom_settings : Dict[str, Any] = None` is modelled as an association
list, the empty list standing for `None`/`{}` (both falsy, both producing no
custom writes). -/
structure AutomationProfile where
  name : String
  description : String
  performance_mode : String := "balanced"
  cpu_pl1 : Int := 45
  cpu_pl2 : Int := 115
  gpu_tgp : Int := 115
  fan1_target : Int := 50
  fan2_target : Int := 50
  rgb_mode : String := "breathing"
  rgb_color : String := "#00FF00"
  rgb_brightness : Int := 75
  ai_optimization : Bool := true
  custom_settings : List (String × String) := []
deriving DecidableEq, Repr

/-- One device interaction issued while applying a profile:
a write to a `/sys/kernel/legion_laptop/<param>` control file
(`AutomationManager._write_kernel_param`), or one of the RGB controller
calls made by `AutomationManager._apply_hardware_profile`. -/
inductive HwAction where
  | kernelWrite (param value : String)
  | rgbMode (mode : String)
  | rgbBrightness (b : Int)
  | rgbStaticColor (hex : String)
deriving DecidableEq, Repr

/-- Does the action write to one of the six fixed thermal-safety parameters
of the profile schema (performance mode, power limits, fan targets)? -/
def HwAction.isThermalWrite : HwAction → Bool
  | .kernelWrite p _ =>
      p = "performance_mode" ∨ p = "cpu_pl1" ∨ p = "cpu_pl2" ∨
      p = "gpu_tgp" ∨ p = "fan1_target" ∨ p = "fan2_target"
  | _ => false

/-- Does the action drive the cosmetic RGB keyboard lighting? -/
def HwAction.isRGBAction : HwAction → Bool
  | .rgbMode _ => true
  | .rgbBrightness _ => true
  | .rgbStaticColor _ => true
  | _ => false

/-- The six kernel-parameter writes issued first by
`AutomationManager._apply_hardware_profile`, in source order. -/
def fixedKernelWrites (p : AutomationProfile) : List HwAction :=
  [ .kernelWrite "performance_mode" p.performance_mode
  , .kernelWrite "cpu_pl1" (toString p.cpu_pl1)
  , .kernelWrite "cpu_pl2" (toString p.cpu_pl2)
  , .kernelWrite "gpu_tgp" (toString p.gpu_tgp)
  , .kernelWrite "fan1_target" (toString p.fan1_target)
  , .kernelWrite "fan2_target" (toString p.fan2_target) ]

/-- The RGB controller calls made in the middle of
`AutomationManager._apply_hardware_profile`, in source order:
`set_mode`, `set_brightness`, and — only when the mode of the profile is
`static` or `breathing` — `set_static_color`. -/
def rgbActions (p : AutomationProfile) : List HwAction :=
  [HwAction.rgbMode p.rgb_mode, HwAction.rgbBrightness p.rgb_brightness] ++
    (if p.rgb_mode = "static" ∨ p.rgb_mode = "breathing" then
      [HwAction.rgbStaticColor p.rgb_color]
    else [])

/-- The kernel writes issued for the `custom_settings` entries, after all
RGB calls. -/
def customWrites (p : AutomationProfile) : List HwAction :=
  p.custom_settings.map (fun kv => HwAction.kernelWrite kv.1 kv.2)

/-- The device-interaction trace of
`AutomationManager._apply_hardware_profile` (the single callback registered
on every listener by `AutomationManager.initialize`).

Source order: the six fixed kernel-parameter writes; then the RGB calls;
then the AI-optimization hook; then one kernel write per `custom_settings`
entry.  No target value is validated before a write.  Two calls can raise
and thereby abort the remaining actions (the surrounding `try` of the
method only logs the exception):
* `set_brightness` raises `ValueError` before touching the device when the
  brightness is outside `[0, 100]`, so the custom writes are skipped;
* when `profile.ai_optimization` is set, the manager evaluates
  `ai_controller.start_monitoring` — an attribute `LinuxAIController` does
  not define (its `monitoring_active` flag is initialised `False` and never
  set) — raising `AttributeError` before any device effect, so the custom
  writes are skipped. -/
def applyHardwareProfile (p : AutomationProfile) : List HwAction :=
  if ¬(0 ≤ p.rgb_brightness ∧ p.rgb_brightness ≤ 100) then
    fixedKernelWrites p ++ [HwAction.rgbMode p.rgb_mode]
  else if p.ai_optimization then
    fixedKernelWrites p ++ rgbActions p
  else
    fixedKernelWrites p ++ (rgbActions p ++ customWrites p)

/-- `BaseAutoListener.apply_profile`: looks the requested name up in
`self.profiles`; an unknown name is logged and rejected (`False`) with no
callback invoked, hence no device interaction; otherwise every registered
callback — here `_apply_hardware_profile` — runs on the profile and the
method returns `True`. -/
def applyProfile (profiles : List AutomationProfile) (profileName : String) :
    Bool × List HwAction :=
  match profiles.find? (fun q => q.name = profileName) with
  | none => (false, [])
  | some p => (true, applyHardwareProfile p)

/-! ## Kernel-parameter writers (retry behaviour) —
`automation/auto_listeners.py` and `features/battery_manager.py` -/

/-- Outcome of the single `sudo sh -c "echo value > path"` subprocess call
(5 second timeout, exit status checked) made by a `_write_kernel_param`. -/
inductive SubprocessOutcome where
  | success
  | calledProcessError
  | timeoutExpired
deriving DecidableEq, Repr

/-- `BatteryManager._write_kernel_param`: one `subprocess.run` call —
there is no retry loop — returning `True` on success and `False` when
`CalledProcessError` or `TimeoutExpired` is caught.  The adapter is a
stream of outcomes indexed by attempt; the second component is the number
of adapter invocations the method makes (always the single call). -/
def batteryWriteKernelParam (adapter : Nat → SubprocessOutcome) : Bool × Nat :=
  match adapter 0 with
  | .success => (true, 1)
  | .calledProcessError => (false, 1)
  | .timeoutExpired => (false, 1)

/-- `AutomationManager._write_kernel_param`: the same single
`subprocess.run` call; failures are caught and logged and the method
returns `None` on every path (modelled `Option Bool := none`), so the
caller never observes the failure.  Second component: adapter invocation
count (always one). -/
def automationWriteKernelParam (adapter : Nat → SubprocessOutcome) :
    Option Bool × Nat :=
  match adapter 0 with
  | .success => (none, 1)
  | .calledProcessError => (none, 1)
  | .timeoutExpired => (none, 1)

/-! ## Monitor listeners — `automation/auto_listeners.py` -/

/-- The `AutomationTrigger` dataclass restricted to the fields the
`check_triggers` methods read.  `condState` is `condition["state"]` for idle
triggers, `condNetwork` is `condition["network_name"]` for wifi triggers,
`condProcess`/`condCpuThreshold` are `condition["process_name"]` /
`condition["cpu_threshold"]` for process triggers.  CPU percentages are
floats only ever compared, so they are modelled exactly as rationals. -/
structure AutomationTrigger where
  trigger_type : String
  condState : String := ""
  condNetwork : String := ""
  condProcess : String := ""
  condCpuThreshold : ℚ := 50
  profile : String
  enabled : Bool := true
deriving DecidableEq, Repr

/-- `UserInactivityAutoListener.check_triggers`.  State: the `is_idle`
flag; input: the idle time returned by `_get_idle_time` and the configured
`idle_threshold`.  When `idle_time >= threshold` and the listener was not
idle, it sets `is_idle = True` and applies the first enabled idle trigger
with `condition["state"] == "idle"` (returning its profile); symmetrically
for the active edge; otherwise nothing happens.  There is no smoothing
window: one reading decides. -/
def inactivityCheckTriggers (triggers : List AutomationTrigger)
    (threshold : Int) (isIdle : Bool) (idleTime : Int) :
    Bool × Option String :=
  if threshold ≤ idleTime ∧ isIdle = false then
    (true,
      (triggers.find? (fun t =>
        t.enabled ∧ t.trigger_type = "idle" ∧ t.condState = "idle")).map
        (·.profile))
  else if idleTime < threshold ∧ isIdle = true then
    (false,
      (triggers.find? (fun t =>
        t.enabled ∧ t.trigger_type = "idle" ∧ t.condState = "active")).map
        (·.profile))
  else
    (isIdle, none)

/-- Run `check_triggers` over a sequence of idle-time readings, collecting
the applied profile (if any) of every evaluation cycle. -/
def inactivityRun (triggers : List AutomationTrigger) (threshold : Int)
    (isIdle : Bool) : List Int → List (Option String)
  | [] => []
  | x :: xs =>
      let step := inactivityCheckTriggers triggers threshold isIdle x
      step.2 :: inactivityRun triggers threshold step.1 xs

/-- An entry of the `detected_games` list of `GameAutoListener`: the process
name, the profile its database entry names, and its database `type`. -/
structure DetectedGame where
  process : String
  profile : String
  dtype : String
deriving DecidableEq, Repr

/-- The "determine best profile" loop of `GameAutoListener.check_triggers`:
for each type in the fixed priority order `game > creative > development >
launcher`, the first detected entry of that type wins. -/
def gameBest (detected : List DetectedGame) : Option DetectedGame :=
  ["game", "creative", "development", "launcher"].findSome?
    (fun ty => detected.find? (fun g => g.dtype = ty))

/-- `GameAutoListener.check_triggers` (decision part).  State: the
`current_game` process name.  A best detection differing from
`current_game` updates the state and applies its profile; an unchanged best
detection applies nothing; when no games are detected and a game was
current, the listener resets and applies the `default` profile. -/
def gameCheckTriggers (currentGame : Option String)
    (detected : List DetectedGame) : Option String × Option String :=
  if detected ≠ [] then
    match gameBest detected with
    | some g =>
        if currentGame ≠ some g.process then (some g.process, some g.profile)
        else (currentGame, none)
    | none => (currentGame, none)
  else if currentGame ≠ none then
    (none, some "default")
  else
    (currentGame, none)

/-- `WiFiAutoListener.check_triggers`.  State: `current_network`.  Only a
*changed* network is acted on: the state is updated and, when connected,
the first enabled wifi trigger whose `network_name` matches is applied.
An unchanged network applies nothing. -/
def wifiCheckTriggers (triggers : List AutomationTrigger)
    (currentNetwork : Option String) (network : Option String) :
    Option String × Option String :=
  if network ≠ currentNetwork then
    (network,
      match network with
      | some n =>
          (triggers.find? (fun t =>
            t.enabled ∧ t.trigger_type = "wifi" ∧ t.condNetwork = n)).map
            (·.profile)
      | none => none)
  else
    (currentNetwork, none)

/-- A process observed by `psutil.process_iter` with its CPU percentage. -/
structure ObservedProcess where
  pname : String
  cpu_percent : ℚ
deriving DecidableEq, Repr

/-- `ProcessAutoListener.check_triggers`.  The listener keeps *no* state
about past emissions: on every cycle it scans its triggers and, for the
first enabled process trigger whose process is running above the CPU
threshold, applies the profile of that trigger and returns it.  (Name comparison
is case-normalised in the source; names are modelled already lowercased.) -/
def processCheckTriggers (triggers : List AutomationTrigger)
    (procs : List ObservedProcess) : Option String :=
  triggers.findSome? (fun t =>
    if t.enabled ∧ t.trigger_type = "process" then
      (procs.find? (fun pr =>
        pr.pname = t.condProcess ∧ t.condCpuThreshold < pr.cpu_percent)).map
        (fun _ => t.profile)
    else none)

/-- Consecutive evaluation cycles of the process listener (no state is
threaded because `check_triggers` reads and writes none). -/
def processRun (triggers : List AutomationTrigger)
    (cycles : List (List ObservedProcess)) : List (Option String) :=
  cycles.map (processCheckTriggers triggers)

/-! ## The AI-optimizer recommendation gate -/

/-- The `OptimizationRecommendation` dataclass
(`ai/ai_controller.py`). -/
structure OptimizationRecommendation where
  confidence : ℚ
  action_type : String
  reason : String
deriving DecidableEq, Repr

/-- A profile-switch request (spec §3 `SwitchRequest`). -/
structure SwitchRequest where
  profile : String
  source : String
  reason : String
deriving DecidableEq, Repr

/-- What the core does with one recommendation: log it, or synthesize a
switch request. -/
inductive RecommendationAction where
  | logOnly
  | synthesize (req : SwitchRequest)
deriving DecidableEq, Repr

/-- Modelled from the spec: the confidence gate for AI-optimizer
recommendations is not present under `src/` — `ai_controller.py` only
declares `OptimizationRecommendation`, and the `ai_optimization` hook in
`AutomationManager._apply_hardware_profile` never consumes one — so the
gate is modelled from spec §6: a recommendation is advisory-only (logged,
not auto-applied) unless its confidence exceeds the configurable threshold
(default `0.5`), in which case a `SwitchRequest` with source `AIOptimizer`
is synthesized. -/
def aiRecommendationGate (threshold : ℚ) (r : OptimizationRecommendation) :
    RecommendationAction :=
  if threshold < r.confidence then
    .synthesize ⟨r.action_type, "AIOptimizer", r.reason⟩
  else
    .logOnly

/-- The default confidence threshold fixed by spec §6. -/
def defaultConfidenceThreshold : ℚ := 1 / 2

/-! ## Ordering predicate and concrete fixtures -/

/-- Every write to a thermal-safety parameter occurs strictly before every
cosmetic RGB action in the trace. -/
def thermalBeforeRGB (l : List HwAction) : Prop :=
  ∀ i j : Fin l.length,
    (l.get i).isThermalWrite = true → (l.get j).isRGBAction = true →
    (i : Nat) < (j : Nat)

/-- A profile whose `cpu_pl2` target (200) lies outside the declared
`IntegerRange(55, 140)` domain of `cpu_pl2`; constructible via
`add_profile` or `load_configuration`, neither of which validates
field values. -/
def badProfile : AutomationProfile :=
  { name := "bad"
    description := "cpu_pl2 target outside its declared domain"
    cpu_pl2 := 200
    ai_optimization := false }

/-- A profile whose `custom_settings` name a thermal-safety parameter. -/
def customThermalProfile : AutomationProfile :=
  { name := "custom-thermal"
    description := "custom_settings touching a fan target"
    ai_optimization := false
    custom_settings := [("fan1_target", "10")] }

/-- The idle-state trigger installed by
`UserInactivityAutoListener.add_idle_trigger("quiet", "default")`. -/
def idleTriggerQuiet : AutomationTrigger :=
  { trigger_type := "idle", condState := "idle", profile := "quiet" }

/-- The active-state trigger installed by the same call. -/
def activeTriggerDefault : AutomationTrigger :=
  { trigger_type := "idle", condState := "active", profile := "default" }

/-- The wifi trigger installed by
`add_wifi_trigger("HomeNetwork", "gaming_performance")`. -/
def homeWifiTrigger : AutomationTrigger :=
  { trigger_type := "wifi", condNetwork := "HomeNetwork",
    profile := "gaming_performance" }

/-- The process trigger installed by
`add_process_trigger("blender", "workstation_gpu", 50.0)`. -/
def blenderTrigger : AutomationTrigger :=
  { trigger_type := "process", condProcess := "blender",
    condCpuThreshold := 50, profile := "workstation_gpu" }

/-- A running `blender` process at 90 percent CPU. -/
def blenderProc : ObservedProcess := { pname := "blender", cpu_percent := 90 }

/-- `blender.exe` as detected by the game-database lookup
(`type = creative`, profile `workstation_gpu`). -/
def blenderDetected : DetectedGame :=
  { process := "blender.exe", profile := "workstation_gpu",
    dtype := "creative" }

/-! ## Helper lemmas -/

lemma clamp255_nonneg (x : Int) : 0 ≤ clamp255 x := le_max_left 0 _

lemma clamp255_le (x : Int) : clamp255 x ≤ 255 :=
  max_le (by norm_num) (min_le_left 255 x)

lemma clamp255_eq_self {x : Int} (h₀ : 0 ≤ x) (h₁ : x ≤ 255) :
    clamp255 x = x := by
  unfold clamp255
  rw [min_eq_right h₁, max_eq_right h₀]

lemma hexCharVal_digitChar : ∀ k : Nat, k < 16 →
    hexCharVal (Nat.digitChar k) = k := by decide

lemma digitChar_ne_hash : ∀ k : Nat, k < 16 → Nat.digitChar k ≠ '#' := by
  decide

lemma parseHexByte_hexByte {x : Int} (h₀ : 0 ≤ x) (h₁ : x ≤ 255) :
    parseHexByte (Nat.digitChar (x.toNat / 16)) (Nat.digitChar (x.toNat % 16)) = x := by
  have hx : x.toNat ≤ 255 := by omega
  have hdiv : x.toNat / 16 < 16 := by omega
  have hmod : x.toNat % 16 < 16 := Nat.mod_lt _ (by norm_num)
  unfold parseHexByte
  rw [hexCharVal_digitChar _ hdiv, hexCharVal_digitChar _ hmod]
  have : x.toNat / 16 * 16 + x.toNat % 16 = x.toNat := by omega
  rw [this]
  omega

lemma thermalBeforeRGB_append {xs ys : List HwAction}
    (hxs : ∀ a ∈ xs, a.isRGBAction = false)
    (hys : ∀ a ∈ ys, a.isThermalWrite = false) :
    thermalBeforeRGB (xs ++ ys) := by
  intro i j hi hj
  rw [List.get_eq_getElem] at hi hj
  have hilen := i.isLt
  have hjlen := j.isLt
  simp only [List.length_append] at hilen hjlen
  have hilt : (i : Nat) < xs.length := by
    by_contra hle
    push_neg at hle
    rw [List.getElem_append_right hle] at hi
    have hmem := hys _ (List.get_mem ys ((i : Nat) - xs.length) (by omega))
    rw [List.get_eq_getElem] at hmem
    rw [hi] at hmem
    exact Bool.true_eq_false.mp hmem
  have hjge : xs.length ≤ (j : Nat) := by
    by_contra hlt
    push_neg at hlt
    rw [List.getElem_append_left hlt] at hj
    have hmem := hxs _ (List.get_mem xs (j : Nat) hlt)
    rw [List.get_eq_getElem] at hmem
    rw [hj] at hmem
    exact Bool.true_eq_false.mp hmem
  omega

lemma fixedKernelWrites_not_rgb (p : AutomationProfile) :
    ∀ a ∈ fixedKernelWrites p, a.isRGBAction = false := by
  intro a ha
  simp only [fixedKernelWrites, List.mem_cons, List.mem_singleton,
    List.not_mem_nil, or_false] at ha
  rcases ha with h | h | h | h | h | h <;> subst h <;> rfl

lemma rgbActions_not_thermal (p : AutomationProfile) :
    ∀ a ∈ rgbActions p, a.isThermalWrite = false := by
  intro a ha
  unfold rgbActions at ha
  by_cases hc : p.rgb_mode = "static" ∨ p.rgb_mode = "breathing"
  · rw [if_pos hc] at ha
    simp at ha
    rcases ha with rfl | rfl | rfl <;> rfl
  · rw [if_neg hc] at ha
    simp at ha
    rcases ha with rfl | rfl <;> rfl

/-! ## Claims -/

/-- C10: every `RGBColor` constructed from arbitrary integer components
stores red, green and blue clamped into `[0, 255]`, and consequently
`RGBColor.from_hex (c.to_hex())` returns `c` unchanged (hex round-trip). -/
theorem rgbColor_clamped_and_hex_roundtrip (r g b : Int) :
    (0 ≤ (RGBColor.make r g b).red ∧ (RGBColor.make r g b).red ≤ 255) ∧
    (0 ≤ (RGBColor.make r g b).green ∧ (RGBColor.make r g b).green ≤ 255) ∧
    (0 ≤ (RGBColor.make r g b).blue ∧ (RGBColor.make r g b).blue ≤ 255) ∧
    RGBColor.fromHex (RGBColor.toHex (RGBColor.make r g b)) =
      RGBColor.make r g b := by
  refine ⟨⟨clamp255_nonneg r, clamp255_le r⟩,
          ⟨clamp255_nonneg g, clamp255_le g⟩,
          ⟨clamp255_nonneg b, clamp255_le b⟩, ?_⟩
  have hr₀ := clamp255_nonneg r
  have hr₁ := clamp255_le r
  have hg₀ := clamp255_nonneg g
  have hg₁ := clamp255_le g
  have hb₀ := clamp255_nonneg b
  have hb₁ := clamp255_le b
  have hdr : (clamp255 r).toNat / 16 < 16 := by omega
  have hdg : (clamp255 g).toNat / 16 < 16 := by omega
  have hdb : (clamp255 b).toNat / 16 < 16 := by omega
  show RGBColor.fromHex
      ('#' :: (hexByte (clamp255 r) ++ hexByte (clamp255 g) ++
        hexByte (clamp255 b))) = RGBColor.make r g b
  unfold hexByte
  unfold RGBColor.fromHex
  rw [List.dropWhile_cons_of_pos (by simp)]
  simp only [List.cons_append, List.nil_append]
  rw [List.dropWhile_cons_of_neg (by simpa using digitChar_ne_hash _ hdr)]
  show RGBColor.make
      (parseHexByte (Nat.digitChar ((clamp255 r).toNat / 16))
        (Nat.digitChar ((clamp255 r).toNat % 16)))
      (parseHexByte (Nat.digitChar ((clamp255 g).toNat / 16))
        (Nat.digitChar ((clamp255 g).toNat % 16)))
      (parseHexByte (Nat.digitChar ((clamp255 b).toNat / 16))
        (Nat.digitChar ((clamp255 b).toNat % 16))) = RGBColor.make r g b
  rw [parseHexByte_hexByte hr₀ hr₁, parseHexByte_hexByte hg₀ hg₁,
      parseHexByte_hexByte hb₀ hb₁]
  show RGBColor.make (clamp255 r) (clamp255 g) (clamp255 b) = RGBColor.make r g b
  unfold RGBColor.make
  rw [clamp255_eq_self hr₀ hr₁, clamp255_eq_self hg₀ hg₁,
      clamp255_eq_self hb₀ hb₁]

/-- C9: for each registered parameter the validation step succeeds (does
not raise) iff the candidate value lies within the declared domain,
boundaries included: GPU power limit `60 ≤ v ≤ 140`, RGB brightness
`0 ≤ b ≤ 100`, clock offsets `-200 ≤ core ≤ 200` and `0 ≤ mem ≤ 1000`. -/
theorem validate_succeeds_iff_in_domain (nv : Bool)
    (a a₁ a₂ fw : AdapterResult) (s : GPUSettings) (rs : RGBState)
    (v b core mem : Int) :
    (raised (setPowerLimit nv a s v) = false ↔ (60 ≤ v ∧ v ≤ 140)) ∧
    (raised (setBrightness fw rs b) = false ↔ (0 ≤ b ∧ b ≤ 100)) ∧
    (raised (setClockOffsets nv a₁ a₂ s core mem) = false ↔
      ((-200 ≤ core ∧ core ≤ 200) ∧ (0 ≤ mem ∧ mem ≤ 1000))) := by
  refine ⟨?_, ?_, ?_⟩
  · by_cases h : 60 ≤ v ∧ v ≤ 140
    · cases nv <;> cases a <;> simp [setPowerLimit, raised, h]
    · simp [setPowerLimit, raised, h]
  · by_cases h : 0 ≤ b ∧ b ≤ 100
    · cases fw <;> simp [setBrightness, raised, h]
    · simp [setBrightness, raised, h]
  · by_cases h₁ : -200 ≤ core ∧ core ≤ 200
    · by_cases h₂ : 0 ≤ mem ∧ mem ≤ 1000
      · cases nv <;> cases a₁ <;> cases a₂ <;>
          simp [setClockOffsets, raised, h₁, h₂]
      · simp [setClockOffsets, raised, h₁, h₂]
    · simp [setClockOffsets, raised, h₁]

/-- C3 counterexample: `set_fan_curve` reports success and replaces the
stored fan curve even though every underlying `nvidia-settings` device
write failed (nonzero exit code), so a failed device write does not leave
the stored state unchanged, contradicting the claim. -/
theorem setFanCurve_mutates_despite_failed_write :
    setFanCurve true .err [.err] initialGPUSettings [(50, 60)] =
      (true, { initialGPUSettings with fan_curve := [(50, 60)] }) ∧
    ({ initialGPUSettings with fan_curve := [(50, 60)] } : GPUSettings) ≠
      initialGPUSettings := by
  exact ⟨rfl, by decide⟩

/-- C3 (amended): `set_power_limit` updates the stored power limit only
after the device write is confirmed (exit code 0) and leaves the state
unchanged, returning failure, when the write fails; `set_fan_curve`,
however, stores the new curve and reports success regardless of the
adapter outcomes. -/
theorem write_confirm_before_state_update (s : GPUSettings) (v : Int)
    (h₁ : 60 ≤ v) (h₂ : v ≤ 140) :
    setPowerLimit true .err s v = .ok (false, s) ∧
    setPowerLimit true .ok s v = .ok (true, { s with power_limit := v }) ∧
    ∀ (ctrl : AdapterResult) (pts : List AdapterResult)
      (curve : List (Int × Int)),
      setFanCurve true ctrl pts s curve = (true, { s with fan_curve := curve }) := by
  refine ⟨?_, ?_, ?_⟩
  · simp [setPowerLimit, h₁, h₂]
  · simp [setPowerLimit, h₁, h₂]
  · intro ctrl pts curve
    rfl

/-- C3 witness: the amended theorem at power limit 100 W. -/
theorem write_confirm_before_state_update_witness :
    setPowerLimit true .err initialGPUSettings 100 =
      .ok (false, initialGPUSettings) :=
  (write_confirm_before_state_update initialGPUSettings 100
    (by norm_num) (by norm_num)).1

/-- C5 counterexample: with an adapter that always times out, the
kernel-parameter writers make exactly one adapter invocation — not the
claimed `1 + retry_count = 3` — before giving up. -/
theorem writeKernelParam_single_attempt_on_timeout :
    batteryWriteKernelParam (fun _ => .timeoutExpired) = (false, 1) ∧
    automationWriteKernelParam (fun _ => .timeoutExpired) = (none, 1) ∧
    (1 : Nat) ≠ 1 + 2 := by
  exact ⟨rfl, rfl, by decide⟩

/-- C5 (amended): a kernel-parameter write whose adapter always times out
makes exactly one adapter invocation (there is no retry loop);
`BatteryManager._write_kernel_param` surfaces `False`, while
`AutomationManager._write_kernel_param` only logs and returns `None`. -/
theorem writeKernelParam_no_retries (adapter : Nat → SubprocessOutcome)
    (h : ∀ n, adapter n = .timeoutExpired) :
    batteryWriteKernelParam adapter = (false, 1) ∧
    automationWriteKernelParam adapter = (none, 1) := by
  constructor
  · unfold batteryWriteKernelParam
    rw [h 0]
  · unfold automationWriteKernelParam
    rw [h 0]

/-- C5 witness: the amended theorem at the always-timeout adapter. -/
theorem writeKernelParam_no_retries_witness :
    batteryWriteKernelParam (fun _ => .timeoutExpired) = (false, 1) :=
  (writeKernelParam_no_retries (fun _ => .timeoutExpired) (fun _ => rfl)).1

/-- C1 counterexample: a registered profile whose `cpu_pl2` target 200
lies outside the declared `IntegerRange(55, 140)` domain is not rejected:
applying it reports success and issues device writes — including the
out-of-range `cpu_pl2 = 200` write itself. -/
theorem invalid_profile_not_rejected :
    ¬(55 ≤ badProfile.cpu_pl2 ∧ badProfile.cpu_pl2 ≤ 140) ∧
    (applyProfile [badProfile] "bad").1 = true ∧
    HwAction.kernelWrite "cpu_pl2" "200" ∈ (applyProfile [badProfile] "bad").2 ∧
    (applyProfile [badProfile] "bad").2 ≠ [] := by
  refine ⟨by decide, rfl, ?_, by decide⟩
  show HwAction.kernelWrite "cpu_pl2" "200" ∈ applyHardwareProfile badProfile
  decide

/-- C1 (amended): a profile whose *name* is unknown is rejected before
anything happens — `apply_profile` returns `False` and issues no device
write; out-of-range target values, by contrast, are not validated at all
(see the counterexample). -/
theorem unknown_profile_rejected_without_writes
    (profiles : List AutomationProfile) (nm : String)
    (h : ∀ p ∈ profiles, ¬ p.name = nm) :
    applyProfile profiles nm = (false, []) := by
  unfold applyProfile
  rw [List.find?_eq_none.mpr (by simpa using h)]

/-- C1 witness: requesting a name absent from the registry. -/
theorem unknown_profile_rejected_without_writes_witness :
    applyProfile [badProfile] "gaming_performance" = (false, []) :=
  unknown_profile_rejected_without_writes [badProfile] "gaming_performance"
    (by decide)

/-- C4 counterexample: a profile whose `custom_settings` name the thermal
parameter `fan1_target` writes it *after* the RGB actions, because the
custom-settings loop runs last, so not every thermal-safety write precedes
every cosmetic RGB write. -/
theorem custom_thermal_write_after_rgb :
    ¬ thermalBeforeRGB (applyHardwareProfile customThermalProfile) := by
  intro h
  exact absurd
    (h ⟨9, by decide⟩ ⟨6, by decide⟩ (by decide) (by decide)) (by decide)

/-- C4 (amended): the six fixed profile fields — performance mode, the
power limits `cpu_pl1`/`cpu_pl2`/`gpu_tgp` and both fan targets — are
always written before any cosmetic RGB action; only writes coming from
`custom_settings` (which run after the RGB calls) can place a
thermal-named write later. -/
theorem fixed_thermal_writes_before_rgb (p : AutomationProfile)
    (h : ∀ kv ∈ p.custom_settings,
      (HwAction.kernelWrite kv.1 kv.2).isThermalWrite = false) :
    thermalBeforeRGB (applyHardwareProfile p) := by
  unfold applyHardwareProfile
  split_ifs with h₁ h₂
  · exact thermalBeforeRGB_append (fixedKernelWrites_not_rgb p)
      (rgbActions_not_thermal p)
  · refine thermalBeforeRGB_append (fixedKernelWrites_not_rgb p) ?_
    intro a ha
    rcases List.mem_append.mp ha with hb | hb
    · exact rgbActions_not_thermal p a hb
    · unfold customWrites at hb
      rcases List.mem_map.mp hb with ⟨kv, hkv, rfl⟩
      exact h kv hkv
  · refine thermalBeforeRGB_append (fixedKernelWrites_not_rgb p) ?_
    intro a ha
    simp at ha
    subst ha
    rfl

/-- C4 witness: the amended theorem at a profile with no custom settings. -/
theorem fixed_thermal_writes_before_rgb_witness :
    thermalBeforeRGB (applyHardwareProfile badProfile) :=
  fixed_thermal_writes_before_rgb badProfile (by simp [badProfile])

/-- C6 counterexample: with threshold 300, four active readings followed
by one noisy idle reading — a single idle detection among the last 5 —
immediately flip the listener to idle and apply the idle profile: there is
no 5-sample majority vote in the idle/active source. -/
theorem single_noisy_reading_flips_idle_profile :
    ((([0, 0, 0, 0, 400] : List Int).filter (fun x => 300 ≤ x)).length = 1) ∧
    inactivityRun [idleTriggerQuiet, activeTriggerDefault] 300 false
      [0, 0, 0, 0, 400] = [none, none, none, none, some "quiet"] := by
  decide

/-- C6 (amended): the idle/active monitor is edge-triggered on the single
latest idle-time reading: the new `is_idle` state is exactly
`threshold ≤ idle_time`, a profile is applied precisely when that state
flips (idle profile on the rising edge, active profile on the falling
edge), and nothing is applied while the comparison agrees with the stored
state.  No smoothing window is involved. -/
theorem inactivity_edge_triggered (triggers : List AutomationTrigger)
    (threshold idleTime : Int) (isIdle : Bool) :
    (inactivityCheckTriggers triggers threshold isIdle idleTime).1 =
      decide (threshold ≤ idleTime) ∧
    (isIdle = false → threshold ≤ idleTime →
      (inactivityCheckTriggers triggers threshold isIdle idleTime).2 =
        (triggers.find? (fun t =>
          t.enabled ∧ t.trigger_type = "idle" ∧ t.condState = "idle")).map
          (·.profile)) ∧
    (isIdle = true → idleTime < threshold →
      (inactivityCheckTriggers triggers threshold isIdle idleTime).2 =
        (triggers.find? (fun t =>
          t.enabled ∧ t.trigger_type = "idle" ∧ t.condState = "active")).map
          (·.profile)) ∧
    (decide (threshold ≤ idleTime) = isIdle →
      (inactivityCheckTriggers triggers threshold isIdle idleTime).2 = none) := by
  cases isIdle
  · by_cases hth : threshold ≤ idleTime
    · simp [inactivityCheckTriggers, hth]
    · simp [inactivityCheckTriggers, hth, not_le.mp hth]
  · by_cases hth : threshold ≤ idleTime
    · simp [inactivityCheckTriggers, hth, not_lt.mpr hth]
    · simp [inactivityCheckTriggers, hth, not_le.mp hth]

/-- C6 witness: the amended theorem on the noisy reading 400 at
threshold 300 from the active state. -/
theorem inactivity_edge_triggered_witness :
    (inactivityCheckTriggers [idleTriggerQuiet, activeTriggerDefault]
      300 false 400).2 = some "quiet" := by
  have h := inactivity_edge_triggered [idleTriggerQuiet, activeTriggerDefault]
    300 400 false
  rw [h.2.1 rfl (by norm_num)]
  decide

/-- C7 counterexample: the process source keeps no hysteresis state — on
two consecutive evaluation cycles that detect the same candidate
(`blender` above its CPU threshold), the same profile is applied on both
cycles rather than only when the candidate changes. -/
theorem process_listener_reemits_same_candidate :
    processRun [blenderTrigger] [[blenderProc], [blenderProc]] =
      [some "workstation_gpu", some "workstation_gpu"] := by
  decide

/-- C7 (amended): the game and WiFi sources do debounce — an unchanged
detected candidate (same best process, same connected network) is never
re-applied until it changes — but the process source re-applies its
profile on every cycle while its condition holds. -/
theorem debounced_sources_do_not_reemit :
    (∀ (triggers : List AutomationTrigger) (cur net : Option String),
      net = cur → (wifiCheckTriggers triggers cur net).2 = none) ∧
    (∀ (cur : Option String) (detected : List DetectedGame)
      (g : DetectedGame), gameBest detected = some g →
      cur = some g.process → (gameCheckTriggers cur detected).2 = none) := by
  constructor
  · intro triggers cur net h
    simp [wifiCheckTriggers, h]
  · intro cur detected g hb hc
    have hne : detected ≠ [] := by
      rintro rfl
      rw [show gameBest [] = none from rfl] at hb
      exact Option.noConfusion hb
    unfold gameCheckTriggers
    rw [if_pos hne, hb]
    subst hc
    simp

/-- C7 witness: the amended theorem on an unchanged WiFi network and an
unchanged detected game. -/
theorem debounced_sources_do_not_reemit_witness :
    (wifiCheckTriggers [homeWifiTrigger] (some "HomeNetwork")
      (some "HomeNetwork")).2 = none ∧
    (gameCheckTriggers (some "blender.exe") [blenderDetected]).2 = none :=
  ⟨debounced_sources_do_not_reemit.1 [homeWifiTrigger] _ _ rfl,
   debounced_sources_do_not_reemit.2 (some "blender.exe") [blenderDetected]
     blenderDetected rfl rfl⟩

/-- C8: a recommendation whose confidence is below the threshold is
advisory-only (logged, never applied), and a profile-switch request — with
source `AIOptimizer` — is synthesized only when the confidence exceeds the
threshold. -/
theorem ai_low_confidence_advisory_only (threshold : ℚ)
    (r : OptimizationRecommendation) :
    (r.confidence < threshold →
      aiRecommendationGate threshold r = .logOnly) ∧
    (∀ req, aiRecommendationGate threshold r = .synthesize req →
      threshold < r.confidence ∧ req.source = "AIOptimizer") := by
  constructor
  · intro h
    unfold aiRecommendationGate
    rw [if_neg (not_lt.mpr (le_of_lt h))]
  · intro req h
    unfold aiRecommendationGate at h
    by_cases hc : threshold < r.confidence
    · rw [if_pos hc] at h
      cases h
      exact ⟨hc, rfl⟩
    · rw [if_neg hc] at h
      exact absurd h (by simp)

/-- C8 witness: a confidence-0.4 recommendation against the default
threshold 0.5 is only logged. -/
theorem ai_low_confidence_advisory_only_witness :
    aiRecommendationGate defaultConfidenceThreshold
      ⟨2 / 5, "profile_switch", "thermal headroom"⟩ = .logOnly :=
  (ai_low_confidence_advisory_only defaultConfidenceThreshold
    ⟨2 / 5, "profile_switch", "thermal headroom"⟩).1
    (by norm_num [defaultConfidenceThreshold])

end Legion
